import Mathlib

/-!
Shallow embedding of `src/src/main.rs` of whisper-to-input-desktop:
a tri-state recording state machine, a background worker that validates
the recorded artifact and calls the transcription endpoint with retries,
and the clipboard hand-off.  External effects (process spawns, file
system, network) are modelled as explicit environment parameters and
effect lists.
-/

namespace Whisper

/-- The application state enum (`enum State`, main.rs lines 56-60). -/
inductive State where
  | Stopped
  | Recording
  | Processing
deriving DecidableEq, Repr

/-- The fixed artifact path (`/tmp/whisper_record.wav`). -/
def wavPath : String := "/tmp/whisper_record.wav"

/-! ### Transcription client (`send_to_whisper`, lines 221-310) -/

/-- Outcome of one HTTP attempt, as observed by the retry loop:
either the multipart form could not be built (the `.file(...)?` at line
240, which aborts before sending), or the send returned a network-level
error (line 289), or a response arrived with a status code and a body
read that itself may fail (`response.text()`). -/
inductive AttemptOutcome where
  | formError (msg : String)
  | netError (msg : String) (isTimeout : Bool)
  | response (status : Nat) (body : Except String String)
deriving Repr

/-- `reqwest::StatusCode::is_success`: 200 ≤ s ≤ 299. -/
def isSuccessStatus (s : Nat) : Prop := 200 ≤ s ∧ s ≤ 299

instance (s : Nat) : Decidable (isSuccessStatus s) :=
  inferInstanceAs (Decidable (200 ≤ s ∧ s ≤ 299))

/-- `reqwest::StatusCode::is_client_error`: 400 ≤ s ≤ 499. -/
def isClientErrorStatus (s : Nat) : Prop := 400 ≤ s ∧ s ≤ 499

instance (s : Nat) : Decidable (isClientErrorStatus s) :=
  inferInstanceAs (Decidable (400 ≤ s ∧ s ≤ 499))

/-- `Display` of `http::StatusCode`: the code followed by its canonical
reason phrase (restricted to the codes exercised here). -/
def statusDisplay (s : Nat) : String :=
  let reason :=
    if s = 200 then "OK"
    else if s = 400 then "Bad Request"
    else if s = 401 then "Unauthorized"
    else if s = 403 then "Forbidden"
    else if s = 500 then "Internal Server Error"
    else "<unknown status code>"
  toString s ++ " " ++ reason

/-- Rust `str::contains`: the pattern occurs somewhere in the string. -/
def strContains (s pat : String) : Bool := decide (2 ≤ (s.splitOn pat).length)

/-- The `last_error` value computed by one failed attempt of the retry
loop (lines 260-296): network errors at lines 289-294, HTTP error
responses at lines 260-284 including the 400 invalid-file-format rewrite
and the 401 rewrite. -/
def attemptErrMsg : AttemptOutcome → String
  | AttemptOutcome.formError m => m
  | AttemptOutcome.netError m t =>
      if t then "Request timed out: " ++ m else "Network request error: " ++ m
  | AttemptOutcome.response s body =>
      let le0 :=
        match body with
        | Except.ok errText => "API error " ++ statusDisplay s ++ ": " ++ errText
        | Except.error _ => "API error " ++ statusDisplay s ++ " with unreadable body"
      if isClientErrorStatus s then
        if s = 400 ∧ strContains le0 "Invalid file format" = true then
          "API Error: Invalid audio file format. Ensure it\x27s a valid WAV file. (" ++ le0 ++ ")"
        else if s = 401 then
          "API Error: Unauthorized (401). Check your API key. (" ++ le0 ++ ")"
        else le0
      else le0

/-- The message returned after the retry loop exits (lines 306-309). -/
def exhaustedMsg (lastError : String) : String :=
  "Failed after multiple attempts. Last error: " ++ lastError

/-- The message of the early `?`-return when the multipart form cannot
attach the file (line 240). -/
def attachFailMsg (m : String) : String :=
  "Failed to attach file \x27" ++ wavPath ++ "\x27: " ++ m

/-- The `while attempts > 0` retry loop of `send_to_whisper`
(lines 231-304).  `trace n` is the outcome of the (n+1)-th request;
`made` counts requests actually sent.  Returns the function result
together with the number of requests made.  A 401 response breaks out of
the loop (line 283) and falls through to the final error return; all
other failures update `last_error` and decrement `attempts`. -/
def sendToWhisperGo (trace : Nat → AttemptOutcome) :
    Nat → Nat → String → Except String String × Nat
  | 0, made, lastError => (Except.error (exhaustedMsg lastError), made)
  | Nat.succ n, made, _lastError =>
    match trace made with
    | AttemptOutcome.formError m => (Except.error (attachFailMsg m), made)
    | AttemptOutcome.netError m t =>
        sendToWhisperGo trace n (made + 1) (attemptErrMsg (AttemptOutcome.netError m t))
    | AttemptOutcome.response s body =>
        if isSuccessStatus s then
          match body with
          | Except.ok t => (Except.ok t, made + 1)
          | Except.error e =>
              (Except.error ("Failed to read successful response body: " ++ e), made + 1)
        else if isClientErrorStatus s ∧ s = 401 then
          (Except.error (exhaustedMsg (attemptErrMsg (AttemptOutcome.response s body))),
            made + 1)
        else
          sendToWhisperGo trace n (made + 1) (attemptErrMsg (AttemptOutcome.response s body))

/-- `send_to_whisper` (lines 221-310): builds the HTTP client (line 223,
whose failure returns early), then runs the retry loop with
`attempts = 3` and the initial `last_error`. -/
def send_to_whisper (clientBuild : Except String Unit) (trace : Nat → AttemptOutcome) :
    Except String String × Nat :=
  match clientBuild with
  | Except.error e => (Except.error ("Failed to build HTTP client: " ++ e), 0)
  | Except.ok _ => sendToWhisperGo trace 3 0 "Unknown error during API call"

/-! ### Background worker (the closure at lines 137-209) -/

/-- Observable effects of the background worker thread. -/
inductive Effect where
  | networkCall
  | deleteFile (path : String)
deriving DecidableEq, Repr

/-- The worker's view of the outside world: whether the artifact exists
(line 143), the result of `fs::metadata` (line 147, success carries the
file size in bytes), and the result `send_to_whisper` would produce if
invoked (line 162). -/
structure WorkerEnv where
  fileExists : Bool
  metadata : Except String Nat
  transcribe : Except String String

/-- The validation chain of the worker closure (lines 142-170):
existence check, metadata read, the 4096-byte minimum and
25 MB maximum size checks, and the network call.  Returns
`processing_result` and the effects performed so far. -/
def workerValidate (env : WorkerEnv) : Except String String × List Effect :=
  if env.fileExists = false then
    (Except.error "Error: Recorded file /tmp/whisper_record.wav not found!",
      ([] : List Effect))
  else
    match env.metadata with
    | Except.ok fileSize =>
        if fileSize < 4096 then
          (Except.error ("Error: Recorded file too small (" ++ toString fileSize ++
            " bytes). Likely empty or recording failed."), [])
        else if fileSize > 25 * 1024 * 1024 then
          (Except.error ("Error: Audio file too large (" ++ toString fileSize ++
            " bytes). Maximum is 25 MB."), [])
        else
          (env.transcribe, [Effect.networkCall])
    | Except.error e =>
        (Except.error ("Error accessing recorded file metadata: " ++ e), [])

/-- The whole worker thread body before the hand-off (lines 139-173):
the validation chain followed by the unconditional `remove_file` of the
artifact (line 173). -/
def workerRun (env : WorkerEnv) : Except String String × List Effect :=
  let p := workerValidate env
  (p.1, p.2 ++ [Effect.deleteFile wavPath])

/-! ### Clipboard sink (`copy_to_clipboard`, lines 313-358) -/

/-- The UTF-8 bytes of a string, as `text.as_bytes()` hands them to the
clipboard program's stdin (line 335). -/
def strBytes (s : String) : List Nat := s.toUTF8.toList.map (fun b => b.toNat)

/-- Observable effects of `copy_to_clipboard`. -/
inductive ClipEffect where
  | writeStdin (prog : String) (bytes : List Nat)
  | warnNoClipboard
deriving DecidableEq, Repr

/-- `copy_to_clipboard` (lines 313-358): prefers `wl-copy`, falls back
to `xclip`, warns when neither is present; pipes `text.as_bytes()` to
the chosen program's stdin via `write_all`. -/
def copy_to_clipboard (wlCopyPresent xclipPresent : Bool) (text : String) :
    List ClipEffect :=
  if wlCopyPresent then [ClipEffect.writeStdin "wl-copy" (strBytes text)]
  else if xclipPresent then [ClipEffect.writeStdin "xclip" (strBytes text)]
  else [ClipEffect.warnNoClipboard]

/-- What the `invoke_from_event_loop` callback writes back on the main
thread (lines 176-207). -/
structure CallbackOut where
  clipEffects : List ClipEffect
  transcriptText : String
  statusText : String
  spinnerOn : Bool
  finalState : State
deriving Repr

/-- The main-thread completion callback (lines 176-207): on success,
copy the transcript to the clipboard and show it with status `Idle`; on
failure, show the error message with status `Error`; either way hide the
spinner and reset the shared state to `Stopped` (lines 201-204). -/
def mainThreadCallback (wlCopyPresent xclipPresent : Bool)
    (processingResult : Except String String) : CallbackOut :=
  match processingResult with
  | Except.ok transcript =>
      { clipEffects := copy_to_clipboard wlCopyPresent xclipPresent transcript
        transcriptText := transcript
        statusText := "Idle"
        spinnerOn := false
        finalState := State.Stopped }
  | Except.error errorMessage =>
      { clipEffects := []
        transcriptText := errorMessage
        statusText := "Error"
        spinnerOn := false
        finalState := State.Stopped }

/-! ### State machine controller (`handle_record_button_press`, lines 63-217) -/

/-- Effects a button press can trigger on the interactive thread. -/
inductive PressEffect where
  | spawnArecord
  | pkillArecord
  | spawnWorker
deriving DecidableEq, Repr

/-- The press handler's view of the outside world: whether `arecord`
resolves (line 83), whether its spawn succeeds (lines 91-109, failure
carries the error text), and whether `pkill` resolves (line 114). -/
structure PressEnv where
  arecordPresent : Bool
  spawnResult : Except String Unit
  pkillPresent : Bool

/-- Result of one press: the new shared state, the sequence of
`set_status_text` writes in order, and the side effects performed. -/
structure PressOut where
  state : State
  statusWrites : List String
  effects : List PressEffect
deriving DecidableEq, Repr

/-- One invocation of `handle_record_button_press` under the state
lock (lines 76-215).  `Stopped`: set `Recording`, check for `arecord`
(revert on absence), spawn it (revert on spawn error).  `Recording`:
best-effort `pkill arecord`, set `Processing`, spawn the background
worker.  `Processing`: ignore the press entirely (lines 211-214). -/
def pressStep (env : PressEnv) : State → PressOut
  | State.Stopped =>
      if env.arecordPresent = false then
        { state := State.Stopped
          statusWrites := ["Recording...", "Error: arecord missing"]
          effects := [] }
      else
        match env.spawnResult with
        | Except.ok _ =>
            { state := State.Recording
              statusWrites := ["Recording..."]
              effects := [PressEffect.spawnArecord] }
        | Except.error e =>
            { state := State.Stopped
              statusWrites := ["Recording...", "Error starting record: " ++ e]
              effects := [PressEffect.spawnArecord] }
  | State.Recording =>
      { state := State.Processing
        statusWrites := ["Processing..."]
        effects := (if env.pkillPresent then [PressEffect.pkillArecord] else []) ++
          [PressEffect.spawnWorker] }
  | State.Processing =>
      { state := State.Processing
        statusWrites := []
        effects := [] }

/-- Iterating the press handler over a sequence of presses. -/
def runPresses (s : State) : List PressEnv → State
  | [] => s
  | env :: rest => runPresses (pressStep env s).state rest

/-! ### Derived predicates and concrete traces used in the theorems -/

/-- An attempt outcome that makes the retry loop continue to the next
iteration: a network error, or a non-success response that is not the
401 break.  (A form-build error aborts the whole function.) -/
def retryableFail : AttemptOutcome → Bool
  | AttemptOutcome.formError _ => false
  | AttemptOutcome.netError _ _ => true
  | AttemptOutcome.response s _ =>
      decide (¬ isSuccessStatus s) && decide (¬ (isClientErrorStatus s ∧ s = 401))

/-- An attempt outcome that counts as a failed request: a network error
or a non-success response. -/
def attemptFails : AttemptOutcome → Bool
  | AttemptOutcome.formError _ => false
  | AttemptOutcome.netError _ _ => true
  | AttemptOutcome.response s _ => decide (¬ isSuccessStatus s)

/-- Whether the outcome is a form-build failure. -/
def isFormError : AttemptOutcome → Bool
  | AttemptOutcome.formError _ => true
  | _ => false

/-- A trace answering 401 Unauthorized to every request. -/
def trace401 : Nat → AttemptOutcome :=
  fun _ => AttemptOutcome.response 401 (Except.ok "no key")

/-- A trace answering 403 Forbidden twice, then succeeding. -/
def trace403 : Nat → AttemptOutcome :=
  fun n =>
    if n = 2 then AttemptOutcome.response 200 (Except.ok "hello")
    else AttemptOutcome.response 403 (Except.ok "forbidden")

/-- A trace answering 500 twice, then succeeding. -/
def trace500ok : Nat → AttemptOutcome :=
  fun n =>
    if n = 2 then AttemptOutcome.response 200 (Except.ok "hi there")
    else AttemptOutcome.response 500 (Except.ok "boom")

/-- A trace answering 500 to every request. -/
def trace500fail : Nat → AttemptOutcome :=
  fun _ => AttemptOutcome.response 500 (Except.ok "boom")

/-! ### Step lemmas for the retry loop -/

theorem sendGo_retryStep (trace : Nat → AttemptOutcome) (n made : Nat) (le : String)
    (h : retryableFail (trace made) = true) :
    sendToWhisperGo trace (n + 1) made le =
      sendToWhisperGo trace n (made + 1) (attemptErrMsg (trace made)) := by
  cases htr : trace made with
  | formError m => rw [htr] at h; simp [retryableFail] at h
  | netError m t => simp only [sendToWhisperGo, htr]
  | response s body =>
      rw [htr] at h
      simp only [retryableFail, Bool.and_eq_true, decide_eq_true_eq] at h
      simp only [sendToWhisperGo, htr]
      rw [if_neg h.1, if_neg h.2]

theorem sendGo_success (trace : Nat → AttemptOutcome) (n made : Nat) (le : String)
    (s : Nat) (t : String)
    (h : trace made = AttemptOutcome.response s (Except.ok t)) (hs : isSuccessStatus s) :
    sendToWhisperGo trace (n + 1) made le = (Except.ok t, made + 1) := by
  simp only [sendToWhisperGo, h, if_pos hs]

theorem sendGo_successBadBody (trace : Nat → AttemptOutcome) (n made : Nat) (le : String)
    (s : Nat) (e : String)
    (h : trace made = AttemptOutcome.response s (Except.error e)) (hs : isSuccessStatus s) :
    sendToWhisperGo trace (n + 1) made le =
      (Except.error ("Failed to read successful response body: " ++ e), made + 1) := by
  simp only [sendToWhisperGo, h, if_pos hs]

theorem sendGo_break401 (trace : Nat → AttemptOutcome) (n made : Nat) (le : String)
    (body : Except String String)
    (h : trace made = AttemptOutcome.response 401 body) :
    sendToWhisperGo trace (n + 1) made le =
      (Except.error (exhaustedMsg (attemptErrMsg (AttemptOutcome.response 401 body))),
        made + 1) := by
  simp only [sendToWhisperGo, h]
  rw [if_pos (⟨(by decide : isClientErrorStatus 401), trivial⟩ :
    isClientErrorStatus 401 ∧ True)]
  rw [if_neg (by decide : ¬ isSuccessStatus 401)]

theorem sendGo_lastFail (trace : Nat → AttemptOutcome) (made : Nat) (le : String)
    (h : attemptFails (trace made) = true) :
    sendToWhisperGo trace 1 made le =
      (Except.error (exhaustedMsg (attemptErrMsg (trace made))), made + 1) := by
  cases htr : trace made with
  | formError m => rw [htr] at h; simp [attemptFails] at h
  | netError m t => simp only [sendToWhisperGo, htr]
  | response s body =>
      rw [htr] at h
      simp only [attemptFails, decide_eq_true_eq] at h
      by_cases hb : isClientErrorStatus s ∧ s = 401
      · simp only [sendToWhisperGo, htr]
        rw [if_neg h, if_pos hb]
      · simp only [sendToWhisperGo, htr]
        rw [if_neg h, if_neg hb]

theorem sendGo_made_le (trace : Nat → AttemptOutcome) :
    ∀ (n made : Nat) (le : String), made ≤ (sendToWhisperGo trace n made le).2 := by
  intro n
  induction n with
  | zero => intro made le; simp [sendToWhisperGo]
  | succ k ih =>
      intro made le
      simp only [sendToWhisperGo]
      cases htr : trace made with
      | formError m => simp
      | netError m t => exact le_trans (Nat.le_succ made) (ih (made + 1) _)
      | response s body =>
          dsimp only
          by_cases hs : isSuccessStatus s
          · rw [if_pos hs]
            cases body <;> simp
          · rw [if_neg hs]
            by_cases hb : isClientErrorStatus s ∧ s = 401
            · rw [if_pos hb]; simp
            · rw [if_neg hb]
              exact le_trans (Nat.le_succ made) (ih (made + 1) _)

/-! ### The claims -/

/-- C1: over any sequence of record-button presses the shared state is
always one of Stopped, Recording or Processing, and a press while
Processing leaves the state unchanged and performs no side effect — in
particular it spawns no second background worker. -/
theorem c1_state_invariant_processing_noop :
    (∀ (presses : List PressEnv) (s : State),
        runPresses s presses = State.Stopped ∨ runPresses s presses = State.Recording ∨
          runPresses s presses = State.Processing) ∧
    (∀ env : PressEnv,
        pressStep env State.Processing =
          { state := State.Processing, statusWrites := [], effects := [] }) := by
  refine ⟨fun presses s => ?_, fun env => rfl⟩
  cases runPresses s presses <;> simp

/-- C3: a 401 Unauthorized response on the first attempt makes
`send_to_whisper` return an error after exactly one request. -/
theorem c3_first_attempt_401_aborts (trace : Nat → AttemptOutcome)
    (body : Except String String)
    (h : trace 0 = AttemptOutcome.response 401 body) :
    (send_to_whisper (Except.ok ()) trace).1 =
      Except.error (exhaustedMsg (attemptErrMsg (AttemptOutcome.response 401 body))) ∧
    (send_to_whisper (Except.ok ()) trace).2 = 1 := by
  unfold send_to_whisper
  rw [sendGo_break401 trace 2 0 _ body h]
  exact ⟨rfl, rfl⟩

theorem c3_first_attempt_401_aborts_witness :
    (send_to_whisper (Except.ok ()) trace401).1 =
      Except.error (exhaustedMsg (attemptErrMsg
        (AttemptOutcome.response 401 (Except.ok "no key")))) ∧
    (send_to_whisper (Except.ok ()) trace401).2 = 1 :=
  c3_first_attempt_401_aborts trace401 (Except.ok "no key") rfl

/-- C4: two 500 responses followed by a success make `send_to_whisper`
return the success body after exactly three requests. -/
theorem c4_two_500_then_success (trace : Nat → AttemptOutcome)
    (b0 b1 : Except String String) (t : String)
    (h0 : trace 0 = AttemptOutcome.response 500 b0)
    (h1 : trace 1 = AttemptOutcome.response 500 b1)
    (h2 : trace 2 = AttemptOutcome.response 200 (Except.ok t)) :
    send_to_whisper (Except.ok ()) trace = (Except.ok t, 3) := by
  unfold send_to_whisper
  rw [sendGo_retryStep trace 2 0 _ (by rw [h0]; rfl),
    sendGo_retryStep trace 1 1 _ (by rw [h1]; rfl),
    sendGo_success trace 0 2 _ 200 t h2 (by decide)]

theorem c4_two_500_then_success_witness :
    send_to_whisper (Except.ok ()) trace500ok = (Except.ok "hi there", 3) :=
  c4_two_500_then_success trace500ok (Except.ok "boom") (Except.ok "boom")
    "hi there" rfl rfl rfl

/-- C8: when all three attempts fail, `send_to_whisper` returns the
error message of the last attempt, prefixed with the
retries-exhausted indication. -/
theorem c8_exhausted_returns_last_error (trace : Nat → AttemptOutcome)
    (h0 : retryableFail (trace 0) = true)
    (h1 : retryableFail (trace 1) = true)
    (h2 : attemptFails (trace 2) = true) :
    send_to_whisper (Except.ok ()) trace =
      (Except.error ("Failed after multiple attempts. Last error: " ++
        attemptErrMsg (trace 2)), 3) := by
  unfold send_to_whisper
  rw [sendGo_retryStep trace 2 0 _ h0, sendGo_retryStep trace 1 1 _ h1,
    sendGo_lastFail trace 2 _ h2]
  rfl

theorem c8_exhausted_returns_last_error_witness :
    send_to_whisper (Except.ok ()) trace500fail =
      (Except.error ("Failed after multiple attempts. Last error: " ++
        attemptErrMsg (trace500fail 2)), 3) :=
  c8_exhausted_returns_last_error trace500fail rfl rfl rfl

/-- C2 (counterexample): with 403 Forbidden — a client error — on the
first two attempts, the retry loop is not terminated: three requests are
made and the third succeeds, so a generic 4xx response is retried. -/
theorem c2_4xx_is_retried_counterexample :
    trace403 0 = AttemptOutcome.response 403 (Except.ok "forbidden") ∧
    isClientErrorStatus 403 ∧
    send_to_whisper (Except.ok ()) trace403 = (Except.ok "hello", 3) := by
  refine ⟨rfl, by decide, ?_⟩
  rfl

/-- C2 (amended): only a 401 response aborts the retry loop after a
single request; any other client-error (4xx) response is retried like a
retryable failure, so at least a second request is made. -/
theorem c2_only_401_aborts :
    (∀ (trace : Nat → AttemptOutcome) (body : Except String String),
        trace 0 = AttemptOutcome.response 401 body →
        (send_to_whisper (Except.ok ()) trace).2 = 1) ∧
    (∀ (trace : Nat → AttemptOutcome) (s : Nat) (body : Except String String),
        trace 0 = AttemptOutcome.response s body →
        isClientErrorStatus s → s ≠ 401 → isFormError (trace 1) = false →
        2 ≤ (send_to_whisper (Except.ok ()) trace).2) := by
  constructor
  · intro trace body h
    unfold send_to_whisper
    rw [sendGo_break401 trace 2 0 _ body h]
  · intro trace s body h0 hc hne hform
    unfold send_to_whisper
    have hr : retryableFail (trace 0) = true := by
      rw [h0]
      simp only [retryableFail, Bool.and_eq_true, decide_eq_true_eq]
      refine ⟨fun hsuc => ?_, fun hb => hne hb.2⟩
      have h400 := hc.1
      have h299 := hsuc.2
      omega
    rw [sendGo_retryStep trace 2 0 _ hr]
    cases htr : trace 1 with
    | formError m => rw [htr] at hform; simp [isFormError] at hform
    | netError m t =>
        rw [sendGo_retryStep trace 1 1 _ (by rw [htr]; rfl)]
        exact sendGo_made_le trace 1 2 _
    | response s2 body2 =>
        by_cases hs2 : isSuccessStatus s2
        · cases body2 with
          | ok t2 =>
              rw [sendGo_success trace 1 1 _ s2 t2 htr hs2]
          | error e2 =>
              rw [sendGo_successBadBody trace 1 1 _ s2 e2 htr hs2]
        · by_cases hb2 : isClientErrorStatus s2 ∧ s2 = 401
          · obtain ⟨hb2c, hb2e⟩ := hb2
            subst hb2e
            rw [sendGo_break401 trace 1 1 _ body2 htr]
          · have hr2 : retryableFail (trace 1) = true := by
              rw [htr]
              simp only [retryableFail, Bool.and_eq_true, decide_eq_true_eq]
              exact ⟨hs2, hb2⟩
            rw [sendGo_retryStep trace 1 1 _ hr2]
            exact sendGo_made_le trace 1 2 _

theorem c2_only_401_aborts_witness :
    (send_to_whisper (Except.ok ()) trace401).2 = 1 ∧
    2 ≤ (send_to_whisper (Except.ok ()) trace403).2 :=
  ⟨c2_only_401_aborts.1 trace401 (Except.ok "no key") rfl,
    c2_only_401_aborts.2 trace403 403 (Except.ok "forbidden") rfl (by decide)
      (by decide) rfl⟩

/-- C5: an artifact strictly below 4096 bytes yields the too-small
failure and an artifact strictly above 25 MB yields the too-large
failure, in both cases with no network call. -/
theorem c5_size_limits_skip_network (env : WorkerEnv) (n : Nat)
    (hex : env.fileExists = true) (hm : env.metadata = Except.ok n) :
    (n < 4096 →
      (workerRun env).1 = Except.error ("Error: Recorded file too small (" ++
        toString n ++ " bytes). Likely empty or recording failed.") ∧
      Effect.networkCall ∉ (workerRun env).2) ∧
    (25 * 1024 * 1024 < n →
      (workerRun env).1 = Except.error ("Error: Audio file too large (" ++
        toString n ++ " bytes). Maximum is 25 MB.") ∧
      Effect.networkCall ∉ (workerRun env).2) := by
  constructor
  · intro hsmall
    simp [workerRun, workerValidate, hex, hm, hsmall]
  · intro hlarge
    have hns : ¬ n < 4096 := by omega
    simp [workerRun, workerValidate, hex, hm, hns, hlarge]

theorem c5_size_limits_skip_network_witness :
    ((workerRun ⟨true, Except.ok 4095, Except.ok "t"⟩).1 =
      Except.error ("Error: Recorded file too small (" ++ toString 4095 ++
        " bytes). Likely empty or recording failed.") ∧
      Effect.networkCall ∉ (workerRun ⟨true, Except.ok 4095, Except.ok "t"⟩).2) ∧
    ((workerRun ⟨true, Except.ok 27262976, Except.ok "t"⟩).1 =
      Except.error ("Error: Audio file too large (" ++ toString 27262976 ++
        " bytes). Maximum is 25 MB.") ∧
      Effect.networkCall ∉ (workerRun ⟨true, Except.ok 27262976, Except.ok "t"⟩).2) :=
  ⟨(c5_size_limits_skip_network ⟨true, Except.ok 4095, Except.ok "t"⟩ 4095
      rfl rfl).1 (by decide),
    (c5_size_limits_skip_network ⟨true, Except.ok 27262976, Except.ok "t"⟩ 27262976
      rfl rfl).2 (by decide)⟩

/-- C6: on every exit path of the background worker — artifact missing,
metadata failure, size-validation failure, transcription failure or
success — the artifact is deleted, and the deletion is the worker's last
effect before the result is handed back. -/
theorem c6_worker_always_deletes_artifact (env : WorkerEnv) :
    Effect.deleteFile wavPath ∈ (workerRun env).2 ∧
    (workerRun env).2.getLast? = some (Effect.deleteFile wavPath) := by
  constructor
  · simp [workerRun]
  · simp [workerRun, List.getLast?_concat]

/-- C7: when a press in the Stopped state cannot start the capture
process — `arecord` absent or its spawn failing — the state is reverted
to Stopped and the last status write is an error message; the state is
never left as Recording. -/
theorem c7_failed_start_reverts_to_stopped (env : PressEnv)
    (hfail : env.arecordPresent = false ∨ ∃ e, env.spawnResult = Except.error e) :
    (pressStep env State.Stopped).state = State.Stopped ∧
    ∃ msg rest, (pressStep env State.Stopped).statusWrites.getLast? = some msg ∧
      msg = "Error" ++ rest := by
  rcases hfail with h | ⟨e, h⟩
  · simp [pressStep, h]
    exact ⟨": arecord missing", rfl⟩
  · cases ha : env.arecordPresent
    · simp [pressStep, ha]
      exact ⟨": arecord missing", rfl⟩
    · simp [pressStep, ha, h]
      refine ⟨" starting record: " ++ e, ?_⟩
      rw [← String.append_assoc]
      rfl

theorem c7_failed_start_reverts_to_stopped_witness :
    (pressStep ⟨false, Except.ok (), true⟩ State.Stopped).state = State.Stopped ∧
    ∃ msg rest,
      (pressStep ⟨false, Except.ok (), true⟩ State.Stopped).statusWrites.getLast? =
        some msg ∧ msg = "Error" ++ rest :=
  c7_failed_start_reverts_to_stopped ⟨false, Except.ok (), true⟩ (Or.inl rfl)

/-- C9: on a successful transcription the byte sequence written to the
clipboard program's stdin is exactly the UTF-8 byte sequence of the
transcript returned by the service. -/
theorem c9_clipboard_gets_exact_bytes (env : WorkerEnv) (n : Nat) (t : String)
    (wl xc : Bool)
    (hex : env.fileExists = true) (hm : env.metadata = Except.ok n)
    (hlo : 4096 ≤ n) (hhi : n ≤ 25 * 1024 * 1024)
    (ht : env.transcribe = Except.ok t) (hclip : wl = true ∨ xc = true) :
    ∃ prog, (mainThreadCallback wl xc (workerRun env).1).clipEffects =
      [ClipEffect.writeStdin prog (strBytes t)] := by
  have hns : ¬ n < 4096 := by omega
  have hnl : ¬ 25 * 1024 * 1024 < n := by omega
  have hres : (workerRun env).1 = Except.ok t := by
    simp [workerRun, workerValidate, hex, hm, hns, hnl, ht]
  rw [hres]
  cases wl with
  | true => exact ⟨"wl-copy", rfl⟩
  | false =>
      rcases hclip with h | h
      · exact absurd h (by simp)
      · subst h
        exact ⟨"xclip", rfl⟩

theorem c9_clipboard_gets_exact_bytes_witness :
    ∃ prog,
      (mainThreadCallback true false
        (workerRun ⟨true, Except.ok 5000, Except.ok "hello world"⟩).1).clipEffects =
      [ClipEffect.writeStdin prog (strBytes "hello world")] :=
  c9_clipboard_gets_exact_bytes ⟨true, Except.ok 5000, Except.ok "hello world"⟩
    5000 "hello world" true false rfl rfl (by decide) (by decide) rfl (Or.inl rfl)

/-- C10: the size thresholds are strict — exactly 4096 bytes and exactly
26214400 bytes both pass validation and reach the network call; only
sizes strictly below 4096 or strictly above 26214400 are rejected. -/
theorem c10_thresholds_are_inclusive (env : WorkerEnv) (n : Nat)
    (hex : env.fileExists = true) (hm : env.metadata = Except.ok n) :
    (4096 ≤ n ∧ n ≤ 26214400 →
      (workerRun env).1 = env.transcribe ∧
      Effect.networkCall ∈ (workerRun env).2) ∧
    (n < 4096 ∨ 26214400 < n →
      Effect.networkCall ∉ (workerRun env).2) := by
  constructor
  · rintro ⟨hlo, hhi⟩
    have hns : ¬ n < 4096 := by omega
    have hnl : ¬ 25 * 1024 * 1024 < n := by omega
    simp [workerRun, workerValidate, hex, hm, hns, hnl]
  · rintro (h | h)
    · simp [workerRun, workerValidate, hex, hm, h]
    · have hns : ¬ n < 4096 := by omega
      have hl : 25 * 1024 * 1024 < n := by omega
      simp [workerRun, workerValidate, hex, hm, hns, hl]

theorem c10_thresholds_are_inclusive_witness :
    ((workerRun ⟨true, Except.ok 4096, Except.ok "lo"⟩).1 = Except.ok "lo" ∧
      Effect.networkCall ∈ (workerRun ⟨true, Except.ok 4096, Except.ok "lo"⟩).2) ∧
    ((workerRun ⟨true, Except.ok 26214400, Except.ok "hi"⟩).1 = Except.ok "hi" ∧
      Effect.networkCall ∈ (workerRun ⟨true, Except.ok 26214400, Except.ok "hi"⟩).2) :=
  ⟨(c10_thresholds_are_inclusive ⟨true, Except.ok 4096, Except.ok "lo"⟩ 4096
      rfl rfl).1 (by decide),
    (c10_thresholds_are_inclusive ⟨true, Except.ok 26214400, Except.ok "hi"⟩ 26214400
      rfl rfl).1 (by decide)⟩

end Whisper


